import Mathlib

/-!
# Fraud Guard — verification of the response-parsing and severity logic

Shallow embedding of the logical core of `src/app.py` (a Streamlit app that
sends text or an image to an external generative-AI service and parses the
four-line reply).  The Python string operations used by the source
(`str.split`, `str.strip`, `str.replace`, the `in` substring test) are
modelled over `List Char`, with `String` wrappers at the boundary.  The two
tabs' duplicated parse/severity blocks are transcribed separately so that
their equivalence can be stated and proved.  UI widget calls are abstracted
into a `TabOutcome` sum type recording which widget branch ran and with
which payload; the external service call is an oracle `Nat → Except String
String` (call index ↦ raised-exception message or returned text), and each
button handler also reports how many service calls it performed.
-/

namespace FraudGuard

/-- Python whitespace test for the ASCII range, as used by `str.strip()` and
the truthiness filter `if l.strip()`.  (CPython additionally strips some
non-ASCII Unicode whitespace; none of the claims involve such characters.) -/
def pyIsSpace (c : Char) : Bool :=
  c = ' ' || c = '\t' || c = '\n' || c = '\r' || c = '\x0b' || c = '\x0c'

/-- `str.strip()` on a character list: drop whitespace from both ends. -/
def pyStripL (s : List Char) : List Char :=
  ((s.dropWhile pyIsSpace).reverse.dropWhile pyIsSpace).reverse

/-- `str.strip()` with no arguments. -/
def pyStrip (s : String) : String := ⟨pyStripL s.toList⟩

/-- `str.split(sep)` for a single-character separator: splits at every
occurrence, keeping empty pieces; `"".split(sep) == [""]`. -/
def pySplitL (sep : Char) : List Char → List (List Char)
  | [] => [[]]
  | c :: rest =>
    if c = sep then [] :: pySplitL sep rest
    else
      match pySplitL sep rest with
      | [] => [[c]]
      | g :: gs => (c :: g) :: gs

/-- `str.split(sep)` on strings. -/
def pySplit (s : String) (sep : Char) : List String :=
  (pySplitL sep s.toList).map fun l => ⟨l⟩

/-- One scanning pass of `s.replace(old, new)` with explicit fuel, so the
recursion is structural (on the fuel) and the definition evaluates inside
the kernel.  Every successful match consumes at least one character when
`old` is non-empty, so `s.length` fuel always suffices. -/
def pyReplaceFuel (old new : List Char) : Nat → List Char → List Char
  | _, [] => []
  | 0, s => s
  | fuel + 1, c :: rest =>
    if old ≠ [] ∧ old.isPrefixOf (c :: rest) then
      new ++ pyReplaceFuel old new fuel ((c :: rest).drop old.length)
    else
      c :: pyReplaceFuel old new fuel rest

/-- `s.replace(old, new)`: replace every non-overlapping occurrence of `old`,
scanning left to right.  (CPython's behaviour for `old = ""` — inserting
`new` between characters — is not modelled; the source only calls `replace`
with the non-empty patterns `"Line N:"`.) -/
def pyReplaceL (old new s : List Char) : List Char :=
  pyReplaceFuel old new s.length s

/-- `s.replace(old, new)` on strings. -/
def pyReplace (s old new : String) : String :=
  ⟨pyReplaceL old.toList new.toList s.toList⟩

/-- The Python substring test `pat in s`. -/
def pyInL (pat : List Char) : List Char → Bool
  | [] => pat.isEmpty
  | c :: rest => pat.isPrefixOf (c :: rest) || pyInL pat rest

/-- `pat in s` on strings. -/
def pyIn (pat s : String) : Bool := pyInL pat.toList s.toList

/-- The structured fields recovered from a well-formed reply (spec §3,
`AnalysisResult`): risk, verdict, hook and the comma-split flags. -/
structure AnalysisResult where
  risk : String
  verdict : String
  hook : String
  flags : List String
deriving DecidableEq

/-- Display severity buckets: which of `st.error` / `st.warning` /
`st.success` renders the verdict banner. -/
inductive Severity where
  | critical
  | warning
  | safe
deriving DecidableEq

/-- What one button press renders, abstracting the Streamlit widgets:
a full result dashboard (severity banner, parsed result, and the flag
strings as rendered, i.e. `flag.strip()` in the render loop), the
malformed-reply error message, nothing at all (tab 2 has no `else`
branch for a short reply), or the exception handler's error message. -/
inductive TabOutcome where
  | rendered (sev : Severity) (res : AnalysisResult) (shownFlags : List String)
  | malformedMsg (msg : String)
  | nothingShown
  | connectionError (msg : String)
deriving DecidableEq

/-- Tab 1, app.py lines 78–81: `result.split('\n')` then
`[l for l in lines if l.strip()]` (whitespace-only lines discarded,
surviving lines kept unmodified). -/
def usableLines1 (result : String) : List String :=
  (pySplit result '\n').filter fun l => pyStrip l != ""

/-- Tab 1, app.py lines 83–87: require at least 4 usable lines, then
`risk = lines[0].replace("Line 1:", "").strip()` and so on; the fourth
line is additionally `.split(',')` into flags. -/
def parseReply1 (result : String) : Option AnalysisResult :=
  let lines := usableLines1 result
  if lines.length ≥ 4 then
    some { risk := pyStrip (pyReplace (lines.getD 0 "") "Line 1:" "")
         , verdict := pyStrip (pyReplace (lines.getD 1 "") "Line 2:" "")
         , hook := pyStrip (pyReplace (lines.getD 2 "") "Line 3:" "")
         , flags := pySplit (pyStrip (pyReplace (lines.getD 3 "") "Line 4:" "")) ',' }
  else none

/-- Tab 1, app.py lines 93–98: `if "High" in risk: st.error(...)` /
`elif "Medium" in risk: st.warning(...)` / `else: st.success(...)`. -/
def severityOf1 (risk : String) : Severity :=
  if pyIn "High" risk then .critical
  else if pyIn "Medium" risk then .warning
  else .safe

/-- Tab 2, app.py lines 134–135: identical line splitting and filtering. -/
def usableLines2 (result : String) : List String :=
  (pySplit result '\n').filter fun l => pyStrip l != ""

/-- Tab 2, app.py lines 137–141: identical parse block. -/
def parseReply2 (result : String) : Option AnalysisResult :=
  let lines := usableLines2 result
  if lines.length ≥ 4 then
    some { risk := pyStrip (pyReplace (lines.getD 0 "") "Line 1:" "")
         , verdict := pyStrip (pyReplace (lines.getD 1 "") "Line 2:" "")
         , hook := pyStrip (pyReplace (lines.getD 2 "") "Line 3:" "")
         , flags := pySplit (pyStrip (pyReplace (lines.getD 3 "") "Line 4:" "")) ',' }
  else none

/-- Tab 2, app.py lines 146–151: identical severity branching. -/
def severityOf2 (risk : String) : Severity :=
  if pyIn "High" risk then .critical
  else if pyIn "Medium" risk then .warning
  else .safe

/-- Tab 1's `try` body after the service call returned or raised
(app.py lines 77–119): an exception reaches the `except` handler and is
rendered as `st.error(f"Connection Error: {e}")`; a returned text is parsed,
a success renders the severity banner, the result fields and each flag
stripped (`flag.strip()` in the loop at lines 112–113), and a short reply
hits the `else` at lines 115–116. -/
def tab1Handle : Except String String → TabOutcome
  | .error e => .connectionError ("Connection Error: " ++ e)
  | .ok result =>
    match parseReply1 result with
    | some res => .rendered (severityOf1 res.risk) res (res.flags.map pyStrip)
    | none => .malformedMsg "Could not analyze. Please try again."

/-- Tab 2's `try` body (app.py lines 131–160): as tab 1 but the handler
message is `st.error(f"Error: {e}")` and a short reply renders nothing
(the `if len(lines) >= 4` at line 137 has no `else`). -/
def tab2Handle : Except String String → TabOutcome
  | .error e => .connectionError ("Error: " ++ e)
  | .ok result =>
    match parseReply2 result with
    | some res => .rendered (severityOf2 res.risk) res (res.flags.map pyStrip)
    | none => .nothingShown

/-- Pressing "Scan Text" (app.py lines 73–119): `if text_input:` guards the
whole body, so an empty string makes no service call; otherwise exactly one
call (`analyze_content`, line 77) is made and its outcome handled.  Returns
the rendered outcome (if any) and the number of service calls performed. -/
def tab1Press (textInput : String) (service : Nat → Except String String) :
    Option TabOutcome × Nat :=
  if textInput = "" then (none, 0)
  else (some (tab1Handle (service 0)), 1)

/-- Pressing "Scan Screenshot" with a file present (app.py lines 125–160):
exactly one service call, its outcome handled by tab 2's block. -/
def tab2Press (service : Nat → Except String String) :
    Option TabOutcome × Nat :=
  (some (tab2Handle (service 0)), 1)

/-- The f-string built by `analyze_content` (app.py lines 51–60), with the
`type` and `content` interpolations as explicit concatenation; whitespace
(leading newline, four-space indents, the blank indented line) is exactly
the source's. -/
def promptHead (ty : String) : String :=
  "\n    Act as a security expert. Analyze this " ++ ty ++
    " strictly.\n    Input: "

/-- Everything after the interpolated content in the prompt. -/
def promptTail : String :=
  "\n    \n    Output ONLY these 4 lines. Do not add bolding or extra text.\n" ++
  "    Line 1: RISK_LEVEL (Must be exactly: High, Medium, or Low)\n" ++
  "    Line 2: VERDICT (Max 3 words, e.g., \x27Phishing Scam\x27, \x27Safe Message\x27)\n" ++
  "    Line 3: THE_HOOK (1 short sentence on what they want, e.g., \x27They are trying to steal your bank password.\x27)\n" ++
  "    Line 4: RED_FLAGS (List 3 distinct flaws separated by commas, e.g., Bad Grammar, Urgency, Suspicious Link)\n    "

/-- `analyze_content`'s prompt for a given kind and content. -/
def analyzePrompt (ty content : String) : String :=
  promptHead ty ++ content ++ promptTail

/-- Spec-side reading of "strips an optional literal prefix of the form
`Line N:`": remove one leading occurrence of the prefix and nothing else.
Used to compare the spec's wording with the source's `str.replace`. -/
def specStripPrefix (pre line : String) : String :=
  if pre.toList.isPrefixOf line.toList then ⟨line.toList.drop pre.toList.length⟩
  else line

/-! ## Helper lemmas about the modelled Python primitives -/

theorem pyInL_append_left (pat l s : List Char) (h : pyInL pat s = true) :
    pyInL pat (l ++ s) = true := by
  induction l with
  | nil => simpa using h
  | cons c cs ih => simp [pyInL, ih]

theorem pyInL_append_self (pat r : List Char) : pyInL pat (pat ++ r) = true := by
  cases pat with
  | nil => cases r <;> simp [pyInL]
  | cons c cs => simp [pyInL, List.isPrefixOf_iff_prefix]

/-- A string occurs in any string of which it is the middle part. -/
theorem pyIn_middle (pat l r : String) : pyIn pat (l ++ pat ++ r) = true := by
  show pyInL pat.toList ((l.toList ++ pat.toList) ++ r.toList) = true
  rw [List.append_assoc]
  exact pyInL_append_left _ _ _ (pyInL_append_self _ _)

/-- A string occurs in any string of which it is the suffix. -/
theorem pyIn_append_right (pat l : String) : pyIn pat (l ++ pat) = true := by
  show pyInL pat.toList (l.toList ++ pat.toList) = true
  exact pyInL_append_left _ _ _ (by simpa using pyInL_append_self pat.toList [])

theorem pyReplaceFuel_congr (old new : List Char) :
    ∀ f g s, s.length ≤ f → s.length ≤ g →
      pyReplaceFuel old new f s = pyReplaceFuel old new g s := by
  intro f
  induction f with
  | zero =>
    intro g s hf _
    have : s = [] := List.length_eq_zero.mp (Nat.le_zero.mp hf)
    subst this
    cases g <;> rfl
  | succ f ih =>
    intro g s hf hg
    match s, g with
    | [], g => cases g <;> simp [pyReplaceFuel]
    | c :: rest, 0 => simp only [List.length_cons] at hg; omega
    | c :: rest, g + 1 =>
      simp only [pyReplaceFuel]
      by_cases hc : old ≠ [] ∧ old.isPrefixOf (c :: rest)
      · rw [if_pos hc, if_pos hc]
        have hold : 0 < old.length := List.length_pos.mpr hc.1
        have hdl : ((c :: rest).drop old.length).length ≤ rest.length := by
          simp only [List.length_drop, List.length_cons]
          omega
        simp only [List.length_cons] at hf hg
        exact congrArg (new ++ ·)
          (ih g _ (Nat.le_trans hdl (by omega)) (Nat.le_trans hdl (by omega)))
      · rw [if_neg hc, if_neg hc]
        simp only [List.length_cons] at hf hg
        exact congrArg (c :: ·) (ih g rest (by omega) (by omega))

theorem pyReplaceFuel_of_not_in (old new : List Char) :
    ∀ f s, pyInL old s = false → pyReplaceFuel old new f s = s := by
  intro f
  induction f with
  | zero => intro s _; cases s <;> rfl
  | succ f ih =>
    intro s h
    match s with
    | [] => rfl
    | c :: rest =>
      have he : pyInL old (c :: rest) = (old.isPrefixOf (c :: rest) || pyInL old rest) := rfl
      rw [he] at h
      have hsplit := Bool.or_eq_false_iff.mp h
      simp only [pyReplaceFuel]
      rw [if_neg (by simp [hsplit.1])]
      rw [ih rest hsplit.2]

/-- Removing a pattern that does not occur leaves the string unchanged. -/
theorem pyReplaceL_of_not_in (old new s : List Char) (h : pyInL old s = false) :
    pyReplaceL old new s = s :=
  pyReplaceFuel_of_not_in old new s.length s h

/-- `replace` consumes a leading occurrence of the pattern and continues on
the remainder. -/
theorem pyReplaceL_cancel (old new rest : List Char) (h : old ≠ []) :
    pyReplaceL old new (old ++ rest) = new ++ pyReplaceL old new rest := by
  match old, h with
  | o :: os, _ =>
    show pyReplaceFuel (o :: os) new ((o :: os) ++ rest).length ((o :: os) ++ rest) = _
    have hlen : ((o :: os) ++ rest).length = (os ++ rest).length + 1 := by
      simp
    rw [hlen, List.cons_append]
    simp only [pyReplaceFuel]
    rw [if_pos ⟨List.cons_ne_nil o os, by
      rw [← List.cons_append]
      simp [List.isPrefixOf_iff_prefix]⟩]
    have hdrop : (o :: (os ++ rest)).drop (o :: os).length = rest := by
      rw [← List.cons_append]
      exact List.drop_left _ _
    rw [hdrop]
    exact congrArg (new ++ ·)
      (pyReplaceFuel_congr (o :: os) new _ _ rest (by simp) (Nat.le_refl _))

/-- String-level: removing a literal prefix whose pattern does not occur in
the remainder yields exactly the remainder. -/
theorem pyReplace_prefix_cancel (pre r : String) (hpre : pre.toList ≠ [])
    (hn : pyIn pre r = false) : pyReplace (pre ++ r) pre "" = r := by
  show String.mk (pyReplaceL pre.toList [] (pre.toList ++ r.toList)) = r
  have hn' : pyInL pre.toList r.toList = false := hn
  rw [pyReplaceL_cancel _ _ _ hpre, pyReplaceL_of_not_in _ _ _ hn', List.nil_append]
  rfl

/-! ## Claims -/

/-- C1 (counterexample): the claim reads "risk, verdict and hook equal lines
one to three with the prefix removed and surrounding whitespace stripped".
For the reply whose first line is `"Line 1: A Line 1: B"` — which does carry
the literal prefix `"Line 1:"` — removing the prefix and stripping would give
`"A Line 1: B"`, but the source's `replace` also deletes the interior
occurrence, so the parsed risk is `"A  B"`. -/
theorem parse_prefix_removal_counterexample :
    (parseReply1 "Line 1: A Line 1: B\nLine 2: V\nLine 3: H\nLine 4: F").map
        AnalysisResult.risk = some "A  B" ∧
    pyStrip (specStripPrefix "Line 1:" "Line 1: A Line 1: B") = "A Line 1: B" ∧
    ("A  B" : String) ≠ "A Line 1: B" :=
  ⟨by decide, by decide, by decide⟩

/-- C1 (amended): for every reply whose newline-split lines, after discarding
whitespace-only lines, number at least 4 and whose first four lines carry the
literal prefixes `"Line 1:"` … `"Line 4:"` respectively with no further
occurrence of that token in the rest of the line, parsing recovers exactly
four fields in the fixed order risk/verdict/hook/flags: risk, verdict and
hook equal lines one to three with the prefix removed and surrounding
whitespace stripped, and flags is the fourth line (prefix removed, stripped)
split on commas. -/
theorem parse_recovers_four_fields (reply r0 r1 r2 r3 : String)
    (hlen : (usableLines1 reply).length ≥ 4)
    (h0 : (usableLines1 reply).getD 0 "" = "Line 1:" ++ r0)
    (n0 : pyIn "Line 1:" r0 = false)
    (h1 : (usableLines1 reply).getD 1 "" = "Line 2:" ++ r1)
    (n1 : pyIn "Line 2:" r1 = false)
    (h2 : (usableLines1 reply).getD 2 "" = "Line 3:" ++ r2)
    (n2 : pyIn "Line 3:" r2 = false)
    (h3 : (usableLines1 reply).getD 3 "" = "Line 4:" ++ r3)
    (n3 : pyIn "Line 4:" r3 = false) :
    parseReply1 reply =
      some { risk := pyStrip r0, verdict := pyStrip r1, hook := pyStrip r2,
             flags := pySplit (pyStrip r3) ',' } := by
  simp only [parseReply1]
  rw [if_pos hlen, h0, h1, h2, h3,
      pyReplace_prefix_cancel _ _ (by decide) n0,
      pyReplace_prefix_cancel _ _ (by decide) n1,
      pyReplace_prefix_cancel _ _ (by decide) n2,
      pyReplace_prefix_cancel _ _ (by decide) n3]

/-- Witness for C1 at a concrete well-formed four-line reply. -/
theorem parse_recovers_four_fields_witness :
    parseReply1 "Line 1: High\nLine 2: Phishing Scam\nLine 3: They want your password.\nLine 4: Bad Grammar, Urgency, Suspicious Link"
      = some { risk := "High", verdict := "Phishing Scam",
               hook := "They want your password.",
               flags := ["Bad Grammar", " Urgency", " Suspicious Link"] } := by
  have h := parse_recovers_four_fields
    "Line 1: High\nLine 2: Phishing Scam\nLine 3: They want your password.\nLine 4: Bad Grammar, Urgency, Suspicious Link"
    " High" " Phishing Scam" " They want your password."
    " Bad Grammar, Urgency, Suspicious Link"
    (by decide) (by decide) (by decide) (by decide) (by decide) (by decide)
    (by decide) (by decide) (by decide)
  rw [h]
  decide

/-- C2: for a reply with fewer than four usable lines the text tab does show
the generic "Could not analyze. Please try again." message (app.py 115–116),
but the image tab's parse block (app.py 137–157) has no `else` branch, so on
the same malformed reply it renders nothing at all — contradicting the
claim (and the source's own "Reuse the same logic" comment at line 132)
that the message is shown on both paths. -/
theorem short_reply_message_only_on_text_tab :
    tab1Handle (Except.ok "gibberish") =
      TabOutcome.malformedMsg "Could not analyze. Please try again." ∧
    tab2Handle (Except.ok "gibberish") = TabOutcome.nothingShown :=
  ⟨rfl, rfl⟩

/-- C3: the severity mapping applies its rules in order — a risk string
containing `"High"` is CRITICAL, otherwise one containing `"Medium"` is
WARNING, otherwise SAFE; the check is case-sensitive substring containment,
with `"High"` ↦ CRITICAL, `"Medium"` ↦ WARNING, `"Low"` ↦ SAFE, `""` ↦ SAFE,
and e.g. `"Highway"` ↦ CRITICAL (substring, not exact match) while
`"high"` ↦ SAFE (case-sensitive). -/
theorem severity_substring_rules :
    (∀ risk, pyIn "High" risk = true → severityOf1 risk = Severity.critical) ∧
    (∀ risk, pyIn "High" risk = false → pyIn "Medium" risk = true →
        severityOf1 risk = Severity.warning) ∧
    (∀ risk, pyIn "High" risk = false → pyIn "Medium" risk = false →
        severityOf1 risk = Severity.safe) ∧
    severityOf1 "High" = Severity.critical ∧
    severityOf1 "Medium" = Severity.warning ∧
    severityOf1 "Low" = Severity.safe ∧
    severityOf1 "" = Severity.safe ∧
    severityOf1 "Highway" = Severity.critical ∧
    severityOf1 "high" = Severity.safe := by
  refine ⟨?_, ?_, ?_, by decide, by decide, by decide, by decide, by decide, by decide⟩
  · intro risk h
    simp [severityOf1, h]
  · intro risk h1 h2
    simp [severityOf1, h1, h2]
  · intro risk h1 h2
    simp [severityOf1, h1, h2]

/-- Witness for C3: a risk string containing `"High"` maps to CRITICAL. -/
theorem severity_substring_rules_witness :
    pyIn "High" "Very High risk" = true ∧
    severityOf1 "Very High risk" = Severity.critical :=
  ⟨by decide, severity_substring_rules.1 "Very High risk" (by decide)⟩

/-- C4 (counterexample): for the reply whose fourth usable line is
`"Bad Grammar, Urgency, Suspicious Link"`, the parsed flags sequence is
`["Bad Grammar", " Urgency", " Suspicious Link"]` — the comma split keeps
the leading spaces, so it is not the trimmed sequence the claim states. -/
theorem flags_not_trimmed_counterexample :
    (parseReply1 "Line 1: High\nLine 2: V\nLine 3: H\nBad Grammar, Urgency, Suspicious Link").map
        AnalysisResult.flags
      = some ["Bad Grammar", " Urgency", " Suspicious Link"] ∧
    (["Bad Grammar", " Urgency", " Suspicious Link"] : List String) ≠
      ["Bad Grammar", "Urgency", "Suspicious Link"] :=
  ⟨by decide, by decide⟩

/-- C4 (amended): parsing a reply whose fourth usable line is
`"Bad Grammar, Urgency, Suspicious Link"` yields the flags sequence
`["Bad Grammar", " Urgency", " Suspicious Link"]` — split on commas with
surrounding whitespace preserved; each flag is trimmed only in the render
loop (`flag.strip()`, app.py 112–113), so the displayed flag list is
`["Bad Grammar", "Urgency", "Suspicious Link"]`. -/
theorem flags_trimmed_only_at_render :
    (parseReply1 "Line 1: High\nLine 2: V\nLine 3: H\nBad Grammar, Urgency, Suspicious Link").map
        AnalysisResult.flags
      = some ["Bad Grammar", " Urgency", " Suspicious Link"] ∧
    ["Bad Grammar", " Urgency", " Suspicious Link"].map pyStrip
      = ["Bad Grammar", "Urgency", "Suspicious Link"] ∧
    tab1Handle (Except.ok "Line 1: High\nLine 2: V\nLine 3: H\nBad Grammar, Urgency, Suspicious Link")
      = TabOutcome.rendered Severity.critical
          { risk := "High", verdict := "V", hook := "H",
            flags := ["Bad Grammar", " Urgency", " Suspicious Link"] }
          ["Bad Grammar", "Urgency", "Suspicious Link"] := by
  refine ⟨by decide, by decide, by decide⟩

/-- C5: whenever the external analysis call raises an exception, each tab's
handler reports the failure inline — tab 1 renders
`st.error(f"Connection Error: {e}")`, tab 2 renders `st.error(f"Error: {e}")`
— the displayed message contains the original error text as a substring, and
exactly one service call was made (no retry). -/
theorem service_error_reported (input msg : String)
    (service : Nat → Except String String)
    (hin : input ≠ "") (hs : service 0 = Except.error msg) :
    tab1Press input service =
      (some (TabOutcome.connectionError ("Connection Error: " ++ msg)), 1) ∧
    tab2Press service =
      (some (TabOutcome.connectionError ("Error: " ++ msg)), 1) ∧
    pyIn msg ("Connection Error: " ++ msg) = true ∧
    pyIn msg ("Error: " ++ msg) = true := by
  refine ⟨?_, ?_, pyIn_append_right _ _, pyIn_append_right _ _⟩
  · simp [tab1Press, hin, hs, tab1Handle]
  · simp [tab2Press, hs, tab2Handle]

/-- Witness for C5: a concrete transport error `"boom"` on both tabs. -/
theorem service_error_reported_witness :
    tab1Press "hi" (fun _ => Except.error "boom") =
      (some (TabOutcome.connectionError ("Connection Error: " ++ "boom")), 1) ∧
    tab2Press (fun _ => Except.error "boom") =
      (some (TabOutcome.connectionError ("Error: " ++ "boom")), 1) ∧
    pyIn "boom" ("Connection Error: " ++ "boom") = true ∧
    pyIn "boom" ("Error: " ++ "boom") = true :=
  service_error_reported "hi" "boom" (fun _ => Except.error "boom")
    (by decide) rfl

set_option maxRecDepth 8000 in
/-- C6: for every text content, the built prompt embeds the literal content
string between a fixed head and a fixed tail, and the tail directs the model
to output exactly the four labeled lines (risk level; verdict of at most 3
words; one-sentence hook; three comma-separated red flags); in particular
the prompt for kind `"text"` with content `"You won a lottery!"` contains
that literal text. -/
theorem prompt_embeds_content_and_format (content : String) :
    analyzePrompt "text" content = promptHead "text" ++ content ++ promptTail ∧
    pyIn content (analyzePrompt "text" content) = true ∧
    pyIn "Output ONLY these 4 lines. Do not add bolding or extra text." promptTail = true ∧
    pyIn "Line 1: RISK_LEVEL (Must be exactly: High, Medium, or Low)" promptTail = true ∧
    pyIn "Line 2: VERDICT (Max 3 words, e.g., \x27Phishing Scam\x27, \x27Safe Message\x27)" promptTail = true ∧
    pyIn "Line 3: THE_HOOK (1 short sentence on what they want, e.g., \x27They are trying to steal your bank password.\x27)" promptTail = true ∧
    pyIn "Line 4: RED_FLAGS (List 3 distinct flaws separated by commas, e.g., Bad Grammar, Urgency, Suspicious Link)" promptTail = true ∧
    pyIn "You won a lottery!" (analyzePrompt "text" "You won a lottery!") = true := by
  refine ⟨rfl, ?_, by decide, by decide, by decide, by decide, by decide, ?_⟩
  · exact pyIn_middle content (promptHead "text") promptTail
  · exact pyIn_middle "You won a lottery!" (promptHead "text") promptTail

/-- C7: two replies whose first four usable lines coincide parse to the same
result — lines beyond the fourth are silently ignored and do not affect the
parsed fields or the severity derived from the risk field. -/
theorem extra_lines_ignored (r1 r2 : String)
    (hlen : (usableLines1 r1).length ≥ 4)
    (htake : (usableLines1 r1).take 4 = (usableLines1 r2).take 4) :
    parseReply1 r1 = parseReply1 r2 ∧
    (parseReply1 r1).map (fun a => severityOf1 a.risk) =
      (parseReply1 r2).map (fun a => severityOf1 a.risk) := by
  have hlen2 : (usableLines1 r2).length ≥ 4 := by
    have h1 : ((usableLines1 r1).take 4).length = 4 := by
      rw [List.length_take]
      omega
    have h2 : ((usableLines1 r2).take 4).length = 4 := by
      rw [← htake]
      exact h1
    rw [List.length_take] at h2
    omega
  have hget : ∀ i, i < 4 →
      (usableLines1 r1).getD i "" = (usableLines1 r2).getD i "" := by
    intro i hi
    rw [List.getD_eq_getElem?_getD, List.getD_eq_getElem?_getD,
        ← List.getElem?_take_of_lt (l := usableLines1 r1) hi,
        ← List.getElem?_take_of_lt (l := usableLines1 r2) hi, htake]
  have hp : parseReply1 r1 = parseReply1 r2 := by
    simp only [parseReply1]
    rw [if_pos hlen, if_pos hlen2, hget 0 (by omega), hget 1 (by omega),
        hget 2 (by omega), hget 3 (by omega)]
  exact ⟨hp, by rw [hp]⟩

/-- Witness for C7: appending two extra lines to a four-line reply leaves
the parsed result unchanged. -/
theorem extra_lines_ignored_witness :
    parseReply1 "Line 1: High\nLine 2: V\nLine 3: H\nLine 4: F" =
      parseReply1 "Line 1: High\nLine 2: V\nLine 3: H\nLine 4: F\nextra line\nanother" :=
  (extra_lines_ignored
    "Line 1: High\nLine 2: V\nLine 3: H\nLine 4: F"
    "Line 1: High\nLine 2: V\nLine 3: H\nLine 4: F\nextra line\nanother"
    (by decide) (by decide)).1

/-- C8: pressing "Scan Text" with the empty text input makes no service call
and produces no result: `if text_input:` is false for the empty string, so
empty text never reaches the prompt builder from the text tab. -/
theorem empty_input_no_service_call (service : Nat → Except String String) :
    tab1Press "" service = (none, 0) :=
  rfl

/-- C9: the text tab and the image tab parse a reply with at least four
usable lines into identical risk/verdict/hook/flags values, and their
severity branches select the same bucket for every risk string: the two
tabs' duplicated parse and severity logic is equivalent. -/
theorem tab_paths_equivalent (reply : String)
    (_hlen : (usableLines2 reply).length ≥ 4) :
    parseReply1 reply = parseReply2 reply ∧
    ∀ risk, severityOf1 risk = severityOf2 risk :=
  ⟨rfl, fun _ => rfl⟩

/-- Witness for C9 at a concrete four-line reply. -/
theorem tab_paths_equivalent_witness :
    parseReply1 "Line 1: High\nLine 2: V\nLine 3: H\nLine 4: F" =
      parseReply2 "Line 1: High\nLine 2: V\nLine 3: H\nLine 4: F" :=
  (tab_paths_equivalent "Line 1: High\nLine 2: V\nLine 3: H\nLine 4: F"
    (by decide)).1

/-- C10: prefix removal deletes every occurrence of the literal token
`"Line N:"` anywhere in the line, not only a leading prefix: for the reply
whose first line is `"Line 1: High Line 1: extra"`, the parsed risk is
`"High  extra"` — the interior occurrence is gone (removing only the leading
prefix would have left `"High Line 1: extra"`, which still contains the
token, while the parsed value contains none). -/
theorem replace_removes_interior_occurrences :
    (parseReply1 "Line 1: High Line 1: extra\nLine 2: V\nLine 3: H\nLine 4: F").map
        AnalysisResult.risk = some "High  extra" ∧
    pyIn "Line 1:" "High Line 1: extra" = true ∧
    pyIn "Line 1:" "High  extra" = false :=
  ⟨by decide, by decide, by decide⟩

end FraudGuard
